import Mathlib

/-!
Verification of the jira-sync repository's ticket pipeline.

Shallow embedding of the Python source into Lean 4.  Each definition is
translated from the source file and symbol named in its doc comment; the
theorems at the end of the file settle the specification claims about
status-transition resolution, ticket normalization, Markdown rendering,
pagination, the connection cache, and bulk ticket fetch.

Python strings are modelled as Lean `String`s, with the case-lowering,
suffix-test and character-replacement operations defined over the underlying
character list so that every definition evaluates by kernel reduction.
-/

namespace JiraSync

/-! ## String primitives

`lowerStr` models Python `str.lower()` (restricted, like `Char.toLower`, to
ASCII case mapping — every string the verified claims touch is ASCII);
`strEndsWith` models `str.endswith`; `replaceChar` models
`str.replace(old, new)` for a one-character pattern, the only form the
repository uses. -/

def lowerStr (s : String) : String := ⟨s.data.map Char.toLower⟩

def strEndsWith (s p : String) : Bool := p.data.isSuffixOf s.data

def replaceChar (s : String) (old new : Char) : String :=
  ⟨s.data.map (fun c => if c = old then new else c)⟩

/-! ## Status transitions (src/client.py, JiraClient.update_status) -/

/-- One status transition as returned by the remote API.  The code reads the
target status name as `t.get("to", {}).get("name", "")`, so a transition with
no target-status information carries the empty string in `toStatus`. -/
structure Transition where
  id : String
  name : String
  toStatus : String
deriving DecidableEq, Repr

/-- The four match rules of `JiraClient.update_status` (src/client.py:467-481)
merged into one predicate: a transition matches the target `status` when its
lowercased name equals the lowercased target or its id equals the target
verbatim, or its lowercased target-status name equals the lowercased target,
or its lowercased name ends with the lowercased target (or with
`"to " ++ target`). -/
def matchesTransition (status : String) (t : Transition) : Bool :=
  let statusLower := lowerStr status
  let tName := lowerStr t.name
  let tTo := lowerStr t.toStatus
  (tName == statusLower || t.id == status) ||
  (tTo == statusLower) ||
  (strEndsWith tName statusLower || strEndsWith tName ("to " ++ statusLower))

/-- The resolution loop of `JiraClient.update_status` (src/client.py:464-481):
scan the transitions in list order; at each transition test, in order, exact
name-or-id match, then target-status-name match, then suffix match, and stop
at the first transition that passes any test, returning its id. -/
def resolve_transition (status : String) : List Transition → Option String
  | [] => none
  | t :: rest =>
    let statusLower := lowerStr status
    let tName := lowerStr t.name
    let tTo := lowerStr t.toStatus
    if tName == statusLower || t.id == status then some t.id
    else if tTo == statusLower then some t.id
    else if strEndsWith tName statusLower || strEndsWith tName ("to " ++ statusLower) then
      some t.id
    else resolve_transition status rest

/-- `JiraClient.update_status` (src/client.py:442-488) on the ticket's fetched
transition list.  `.ok tid` models a successful call to
`transition_issue(issue, tid)`; `.error names` models the `ValueError` whose
message lists the available transition names — on that path no remote
transition is performed.  The Python guard `if not transition_id` is falsy on
both `None` and the empty string, which the branch on `tid == ""` mirrors. -/
def update_status (status : String) (transitions : List Transition) :
    Except (List String) String :=
  match resolve_transition status transitions with
  | some tid =>
      if tid == "" then .error (transitions.map (fun t => t.name))
      else .ok tid
  | none => .error (transitions.map (fun t => t.name))

/-- Modelled from the spec for comparison in claim C1 only (not from the
source): resolution order applied across the whole transition list — first
scan the entire list for an exact transition-name match (case-insensitive),
then for an exact transition-id match, then for a target-status-name match,
then for a suffix match. -/
def specResolveTransition (status : String) (ts : List Transition) : Option String :=
  let statusLower := lowerStr status
  ((ts.find? (fun t => lowerStr t.name == statusLower)).map (fun t => t.id)) <|>
  ((ts.find? (fun t => t.id == status)).map (fun t => t.id)) <|>
  ((ts.find? (fun t => lowerStr t.toStatus == statusLower)).map (fun t => t.id)) <|>
  ((ts.find? (fun t => strEndsWith (lowerStr t.name) statusLower ||
      strEndsWith (lowerStr t.name) ("to " ++ statusLower))).map (fun t => t.id))

/-! ## Dates (src/client.py JiraClient._parse_date and
src/domains/ticket/query.py _parse_date — the two copies are identical) -/

/-- A naive timestamp, as produced by `datetime.fromisoformat` on a string
with no fractional seconds and no timezone. -/
structure DateTime where
  year : Nat
  month : Nat
  day : Nat
  hour : Nat
  minute : Nat
  second : Nat
deriving DecidableEq, Repr

def isLeapYear (y : Nat) : Bool :=
  (y % 4 == 0 && y % 100 != 0) || y % 400 == 0

def daysInMonth (y m : Nat) : Nat :=
  if m == 2 then (if isLeapYear y then 29 else 28)
  else if m == 4 || m == 6 || m == 9 || m == 11 then 30
  else 31

def digitVal (c : Char) : Nat := c.toNat - 48

def twoDigits (a b : Char) : Nat := 10 * digitVal a + digitVal b

def fourDigits (a b c d : Char) : Nat :=
  1000 * digitVal a + 100 * digitVal b + 10 * digitVal c + digitVal d

/-- Modelled standard-library behaviour: `datetime.fromisoformat` restricted
to the shapes the repository can feed it — `YYYY-MM-DD` or
`YYYY-MM-DD{T| }HH:MM:SS` with no fractional part (the caller has already cut
at the first dot) and no timezone suffix.  Returns `none` where Python raises
`ValueError`: wrong shape, non-digit positions, or out-of-range fields
(`datetime` requires year ≥ 1 and a valid calendar day). -/
def fromisoformat (s : String) : Option DateTime :=
  let valid (dt : DateTime) : Option DateTime :=
    if 1 ≤ dt.year && dt.year ≤ 9999 && 1 ≤ dt.month && dt.month ≤ 12 &&
        1 ≤ dt.day && dt.day ≤ daysInMonth dt.year dt.month &&
        dt.hour ≤ 23 && dt.minute ≤ 59 && dt.second ≤ 59 then
      some dt
    else none
  match s.data with
  | [y1, y2, y3, y4, '-', m1, m2, '-', d1, d2] =>
      if [y1, y2, y3, y4, m1, m2, d1, d2].all Char.isDigit then
        valid ⟨fourDigits y1 y2 y3 y4, twoDigits m1 m2, twoDigits d1 d2, 0, 0, 0⟩
      else none
  | [y1, y2, y3, y4, '-', m1, m2, '-', d1, d2, sep, h1, h2, ':', n1, n2, ':', s1, s2] =>
      if (sep == 'T' || sep == ' ') &&
          [y1, y2, y3, y4, m1, m2, d1, d2, h1, h2, n1, n2, s1, s2].all Char.isDigit then
        valid ⟨fourDigits y1 y2 y3 y4, twoDigits m1 m2, twoDigits d1 d2,
          twoDigits h1 h2, twoDigits n1 n2, twoDigits s1 s2⟩
      else none
  | _ => none

/-- `date_str.split(".")[0]`: the prefix of the string before its first dot
(the whole string when it has no dot).  This is how `_parse_date` removes the
sub-second part and, with it, the trailing timezone of the vendor format
`2024-01-15T10:30:00.000+0000`. -/
def takeUntilDot (s : String) : String := ⟨s.data.takeWhile (fun c => c != '.')⟩

/-- `JiraClient._parse_date` (src/client.py:373-388), identical to
`_parse_date` in src/domains/ticket/query.py:147-160.  An absent or empty
date value returns `None` (`if not date_str`); otherwise the string is cut at
its first dot and handed to `datetime.fromisoformat`, whose `ValueError` is
caught and turned into `None`.  (The `isinstance(date_str, datetime)`
pass-through branch is for values that are already parsed, which cannot arise
from the raw API strings modelled here.) -/
def parse_date (date_str : Option String) : Option DateTime :=
  match date_str with
  | none => none
  | some s => if s == "" then none else fromisoformat (takeUntilDot s)

/-! ## Raw issues and normalization (src/client.py JiraClient._issue_to_ticket
and src/domains/ticket/query.py _issue_to_ticket — identical logic; the
client version reads the base URL from its config, the domain version takes
it as an argument) -/

/-- State of one attribute on a vendor response object: absent altogether
(reading it directly raises `AttributeError`), present with value `None`, or
present with a value. -/
inductive Attr (α : Type) where
  | missing
  | null
  | val (a : α)
deriving DecidableEq, Repr

/-- `getattr(obj, name, None)` combined with Python truthiness for the
`hasattr(...) and obj.x` guards: an absent or `None` attribute yields
`none`. -/
def Attr.toOpt : Attr α → Option α
  | .missing => none
  | .null => none
  | .val a => some a

/-- A nested object read as `getattr(x, "name", "")` — `name` is `none` when
the wrapped object has no such attribute. -/
structure RawNamed where
  name : Option String
deriving DecidableEq, Repr

/-- A user object read as `getattr(x, "displayName", "")`. -/
structure RawUser where
  displayName : Option String
deriving DecidableEq, Repr

/-- The `fields` sub-object of a parent issue; its `summary` is read with
`getattr(fields.parent.fields, "summary", "")`, so absence and `None` are
distinguishable. -/
structure RawParentFields where
  summary : Attr String
deriving DecidableEq, Repr

/-- A parent issue reference: `fields.parent.key` is read directly. -/
structure RawParent where
  key : String
  fields : RawParentFields
deriving DecidableEq, Repr

/-- One end of an issue link: `link.outwardIssue.key` and
`link.outwardIssue.fields.summary` are read directly. -/
structure RawLinkEnd where
  key : String
  summary : String
deriving DecidableEq, Repr

/-- A raw issue link.  `link.type.name` is read directly; the two ends are
probed with `hasattr`, which `Option` models. -/
structure RawIssueLink where
  type_name : String
  outwardIssue : Option RawLinkEnd
  inwardIssue : Option RawLinkEnd
deriving DecidableEq, Repr

/-- A raw comment: author via `getattr(comment.author, "displayName",
"Unknown")`, body via `comment.body or ""`, created read directly and
nullable. -/
structure RawComment where
  author : Option String
  body : Option String
  created : Option String
deriving DecidableEq, Repr

/-- A raw attachment; all four attributes are read directly. -/
structure RawAttachment where
  filename : String
  content : String
  size : Int
  mimeType : String
deriving DecidableEq, Repr

/-- A value found in an epic-link candidate field: a string key, an object
with a `key` attribute, or a truthy object with neither (on which the
candidate loop falls through to the next field name). -/
inductive EpicFieldVal where
  | str (s : String)
  | obj (key : String)
  | other
deriving DecidableEq, Repr

/-- The `issue.fields` response object.  Attributes the code reads directly
(`fields.summary`, `fields.status`, …) raise `AttributeError` when absent;
attributes it probes with `hasattr`/`getattr` (parent, the epic custom
fields, subtasks, issuelinks, comment, attachment, resolutiondate) never do.
`comment` stands for `fields.comment` with its inner `.comments` list
inlined, and subtasks/components/fixVersions carry the `.key`/`.name`
projections the loops read directly. -/
structure RawFields where
  summary : Attr String
  description : Attr String
  status : Attr RawNamed
  priority : Attr RawNamed
  issuetype : Attr RawNamed
  assignee : Attr RawUser
  reporter : Attr RawUser
  created : Attr String
  updated : Attr String
  resolutiondate : Attr String
  labels : Attr (List String)
  components : Attr (List String)
  fixVersions : Attr (List String)
  parent : Attr RawParent
  customfield_10014 : Attr EpicFieldVal
  customfield_10008 : Attr EpicFieldVal
  subtasks : Attr (List String)
  issuelinks : Attr (List RawIssueLink)
  comment : Attr (List RawComment)
  attachment : Attr (List RawAttachment)
deriving DecidableEq, Repr

/-- A raw issue: `issue.key` plus its `fields` object. -/
structure RawIssue where
  key : String
  fields : RawFields
deriving DecidableEq, Repr

/-- An issue-link record of the normalized ticket: the Python dict holds
`type` always and `direction`/`key`/`summary` only when one link end was
present, which the `Option` fields model (`.get(k, "")` on a missing key is
`none.getD ""` here). -/
structure LinkData where
  linkType : String
  direction : Option String
  key : Option String
  summary : Option String
deriving DecidableEq, Repr

/-- A comment record of the normalized ticket. -/
structure CommentData where
  author : String
  body : String
  created : String
deriving DecidableEq, Repr

/-- An attachment record of the normalized ticket. -/
structure AttachmentData where
  filename : String
  url : String
  size : Int
  mime_type : String
deriving DecidableEq, Repr

/-- The normalized ticket (dataclass `JiraTicket`, src/client.py:17-49 and
src/domains/ticket/types.py). -/
structure JiraTicket where
  key : String
  summary : String := ""
  description : String := ""
  status : String := ""
  priority : String := ""
  issue_type : String := ""
  assignee : String := ""
  reporter : String := ""
  created : Option DateTime := none
  updated : Option DateTime := none
  resolved : Option DateTime := none
  labels : List String := []
  components : List String := []
  fix_versions : List String := []
  parent_key : Option String := none
  parent_summary : Option String := none
  epic_key : Option String := none
  epic_name : Option String := none
  subtasks : List String := []
  links : List LinkData := []
  comments : List CommentData := []
  attachments : List AttachmentData := []
  url : String := ""
deriving DecidableEq, Repr

/-- Direct read `fields.<attrName>` of a nullable string, followed by
`or ""`. -/
def readStr (attrName : String) : Attr String → Except String String
  | .missing => .error attrName
  | .null => .ok ""
  | .val s => .ok s

/-- `getattr(fields.x, "name", "") if fields.x else ""` after the direct read
`fields.<attrName>`. -/
def readNamed (attrName : String) : Attr RawNamed → Except String String
  | .missing => .error attrName
  | .null => .ok ""
  | .val n => .ok (n.name.getD "")

/-- `getattr(fields.x, "displayName", "") if fields.x else ""` after the
direct read `fields.<attrName>`. -/
def readUser (attrName : String) : Attr RawUser → Except String String
  | .missing => .error attrName
  | .null => .ok ""
  | .val u => .ok (u.displayName.getD "")

/-- Direct read of a nullable date string handed to `_parse_date`. -/
def readDate (attrName : String) : Attr String → Except String (Option DateTime)
  | .missing => .error attrName
  | .null => .ok (parse_date none)
  | .val s => .ok (parse_date (some s))

/-- `list(fields.x) if fields.x else []` after the direct read
`fields.<attrName>` (a present empty list is falsy, with the same result). -/
def readList (attrName : String) : Attr (List α) → Except String (List α)
  | .missing => .error attrName
  | .null => .ok []
  | .val l => .ok l

/-- One candidate of `_get_epic_link_field`: the field must exist and be
truthy; a string is returned as is (an empty string is falsy and skipped), an
object with a `key` attribute contributes its key, and any other truthy value
falls through to the next candidate. -/
def epicCandidate : Attr EpicFieldVal → Option String
  | .val (.str s) => if s == "" then none else some s
  | .val (.obj k) => some k
  | .val .other => none
  | _ => none

/-- `_get_epic_link_field` (src/client.py:353-371 and
src/domains/ticket/query.py:163-174): try `customfield_10014`, then
`customfield_10008`, then `parent`; first hit wins.  The `parent` candidate
is an object with a `key` attribute whenever present. -/
def _get_epic_link_field (fields : RawFields) : Option String :=
  epicCandidate fields.customfield_10014 <|>
  epicCandidate fields.customfield_10008 <|>
  (fields.parent.toOpt.map (fun p => p.key))

/-- `Nat.digitChar` of the two decimal digits of `n % 100`. -/
def pad2 (n : Nat) : String := ⟨[Nat.digitChar (n / 10 % 10), Nat.digitChar (n % 10)]⟩

/-- Four-digit zero-padded rendering of `n % 10000`. -/
def pad4 (n : Nat) : String :=
  ⟨[Nat.digitChar (n / 1000 % 10), Nat.digitChar (n / 100 % 10),
    Nat.digitChar (n / 10 % 10), Nat.digitChar (n % 10)]⟩

/-- Python `str(...)` of an `Optional[datetime]`: `"None"`, or the
`YYYY-MM-DD HH:MM:SS` rendering of a naive second-precision datetime. -/
def pyStrOptDate : Option DateTime → String
  | none => "None"
  | some d =>
      pad4 d.year ++ "-" ++ pad2 d.month ++ "-" ++ pad2 d.day ++ " " ++
      pad2 d.hour ++ ":" ++ pad2 d.minute ++ ":" ++ pad2 d.second

/-- Conversion of one raw issue link into the ticket's link record
(src/client.py:317-330). -/
def linkToData (l : RawIssueLink) : LinkData :=
  match l.outwardIssue with
  | some o => ⟨l.type_name, some "outward", some o.key, some o.summary⟩
  | none =>
    match l.inwardIssue with
    | some i => ⟨l.type_name, some "inward", some i.key, some i.summary⟩
    | none => ⟨l.type_name, none, none, none⟩

/-- Conversion of one raw comment into the ticket's comment record
(src/client.py:333-339). -/
def commentToData (c : RawComment) : CommentData :=
  ⟨c.author.getD "Unknown", c.body.getD "", pyStrOptDate (parse_date c.created)⟩

/-- Conversion of one raw attachment into the ticket's attachment record
(src/client.py:342-349). -/
def attachmentToData (a : RawAttachment) : AttachmentData :=
  ⟨a.filename, a.content, a.size, a.mimeType⟩

/-- `_issue_to_ticket` (src/client.py:273-351 and
src/domains/ticket/query.py:60-144).  `.error attrName` models the
`AttributeError` Python raises when a directly-read attribute is absent from
the response; every other path produces the normalized ticket.  `epic_name`
is never assigned by the source and stays `none`. -/
def _issue_to_ticket (issue : RawIssue) (base_url : String) :
    Except String JiraTicket := do
  let fields := issue.fields
  let summary ← readStr "summary" fields.summary
  let description ← readStr "description" fields.description
  let status ← readNamed "status" fields.status
  let priority ← readNamed "priority" fields.priority
  let issue_type ← readNamed "issuetype" fields.issuetype
  let assignee ← readUser "assignee" fields.assignee
  let reporter ← readUser "reporter" fields.reporter
  let created ← readDate "created" fields.created
  let updated ← readDate "updated" fields.updated
  let resolved := parse_date fields.resolutiondate.toOpt
  let labels ← readList "labels" fields.labels
  let components ← readList "components" fields.components
  let fix_versions ← readList "fixVersions" fields.fixVersions
  let parentPair :=
    match fields.parent.toOpt with
    | some p =>
        (some p.key,
         match p.fields.summary with
         | .missing => some ""
         | .null => none
         | .val s => some s)
    | none => (none, none)
  return {
    key := issue.key
    summary := summary
    description := description
    status := status
    priority := priority
    issue_type := issue_type
    assignee := assignee
    reporter := reporter
    created := created
    updated := updated
    resolved := resolved
    labels := labels
    components := components
    fix_versions := fix_versions
    parent_key := parentPair.1
    parent_summary := parentPair.2
    epic_key := _get_epic_link_field fields
    epic_name := none
    subtasks := fields.subtasks.toOpt.getD []
    links := (fields.issuelinks.toOpt.getD []).map linkToData
    comments := (fields.comment.toOpt.getD []).map commentToData
    attachments := (fields.attachment.toOpt.getD []).map attachmentToData
    url := base_url ++ "/browse/" ++ issue.key
  }

/-- Value of a direct nullable-string read (`x or ""`) when the attribute is
present. -/
def attrStrVal : Attr String → String
  | .val s => s
  | _ => ""

/-- Value of a direct named-object read when the attribute is present. -/
def attrNamedVal : Attr RawNamed → String
  | .val n => n.name.getD ""
  | _ => ""

/-- Value of a direct user read when the attribute is present. -/
def attrUserVal : Attr RawUser → String
  | .val u => u.displayName.getD ""
  | _ => ""

/-- Value of a direct nullable date read when the attribute is present. -/
def attrDateVal : Attr String → Option DateTime
  | .val s => parse_date (some s)
  | _ => none

/-- Value of a direct list read when the attribute is present. -/
def attrListVal : Attr (List α) → List α
  | .val l => l
  | _ => []

/-- `getattr(parent.fields, "summary", "")` as stored into the optional
`parent_summary`: an absent attribute gives the `""` default, a `None` value
passes through as `None`. -/
def parentSummaryVal : Attr String → Option String
  | .missing => some ""
  | .null => none
  | .val s => some s

/-- The ticket `_issue_to_ticket` produces whenever no direct attribute read
raises. -/
def ticketOfRaw (issue : RawIssue) (base_url : String) : JiraTicket :=
  let fields := issue.fields
  { key := issue.key
    summary := attrStrVal fields.summary
    description := attrStrVal fields.description
    status := attrNamedVal fields.status
    priority := attrNamedVal fields.priority
    issue_type := attrNamedVal fields.issuetype
    assignee := attrUserVal fields.assignee
    reporter := attrUserVal fields.reporter
    created := attrDateVal fields.created
    updated := attrDateVal fields.updated
    resolved := parse_date fields.resolutiondate.toOpt
    labels := attrListVal fields.labels
    components := attrListVal fields.components
    fix_versions := attrListVal fields.fixVersions
    parent_key :=
      (match fields.parent.toOpt with
        | some p =>
            (some p.key,
             match p.fields.summary with
             | Attr.missing => some ""
             | Attr.null => none
             | Attr.val s => some s)
        | none => (none, none)).1
    parent_summary :=
      (match fields.parent.toOpt with
        | some p =>
            (some p.key,
             match p.fields.summary with
             | Attr.missing => some ""
             | Attr.null => none
             | Attr.val s => some s)
        | none => (none, none)).2
    epic_key := _get_epic_link_field fields
    epic_name := none
    subtasks := fields.subtasks.toOpt.getD []
    links := (fields.issuelinks.toOpt.getD []).map linkToData
    comments := (fields.comment.toOpt.getD []).map commentToData
    attachments := (fields.attachment.toOpt.getD []).map attachmentToData
    url := base_url ++ "/browse/" ++ issue.key }

/-- The twelve attributes `_issue_to_ticket` reads directly on every issue —
reading any of them on an object that lacks it raises `AttributeError`. -/
abbrev DirectAttrsPresent (f : RawFields) : Prop :=
  f.summary ≠ .missing ∧ f.description ≠ .missing ∧ f.status ≠ .missing ∧
  f.priority ≠ .missing ∧ f.issuetype ≠ .missing ∧ f.assignee ≠ .missing ∧
  f.reporter ≠ .missing ∧ f.created ≠ .missing ∧ f.updated ≠ .missing ∧
  f.labels ≠ .missing ∧ f.components ≠ .missing ∧ f.fixVersions ≠ .missing

/-- A raw issue whose every field attribute is present with value `None`. -/
def exFieldsAllNull : RawFields :=
  ⟨.null, .null, .null, .null, .null, .null, .null, .null, .null, .null,
   .null, .null, .null, .null, .null, .null, .null, .null, .null, .null⟩

/-! ## Configuration (src/config.py) and formatter (src/formatter.py) -/

/-- Default `status_tags` mapping (src/config.py:36-42). -/
def defaultStatusTags : List (String × String) :=
  [("To Do", "status/todo"), ("In Progress", "status/in-progress"),
   ("Ready", "status/ready"), ("Done", "status/done"), ("Closed", "status/closed")]

/-- Default `priority_tags` mapping (src/config.py:44-50). -/
def defaultPriorityTags : List (String × String) :=
  [("Highest", "priority/highest"), ("High", "priority/high"),
   ("Medium", "priority/medium"), ("Low", "priority/low"),
   ("Lowest", "priority/lowest")]

/-- Default `type_tags` mapping (src/config.py:52-58). -/
def defaultTypeTags : List (String × String) :=
  [("Epic", "type/epic"), ("Story", "type/story"), ("Task", "type/task"),
   ("Bug", "type/bug"), ("Sub-task", "type/subtask")]

/-- `Config` (src/config.py:15-58), restricted to the fields the verified
code paths read; the tag tables are Python dicts with unique keys, modelled
as association lists. -/
structure Config where
  jira_url : String := ""
  jira_email : String := ""
  jira_api_token : String := ""
  jira_cloud_id : String := ""
  include_comments : Bool := true
  include_attachments : Bool := true
  include_links : Bool := true
  status_tags : List (String × String) := defaultStatusTags
  priority_tags : List (String × String) := defaultPriorityTags
  type_tags : List (String × String) := defaultTypeTags
deriving DecidableEq, Repr

/-- Python `dict.get(key)`: the value stored under `key`, if any. -/
def dictGet (m : List (String × String)) (k : String) : Option String :=
  (m.find? (fun p => p.1 == k)).map (fun p => p.2)

/-- `Config.get_status_tag` (src/config.py:203-205): mapped tag, or the
fallback `"status/" + status.lower().replace(" ", "-")`. -/
def get_status_tag (cfg : Config) (status : String) : String :=
  (dictGet cfg.status_tags status).getD
    ("status/" ++ replaceChar (lowerStr status) ' ' '-')

/-- `Config.get_priority_tag` (src/config.py:207-209): mapped tag, or the
fallback `"priority/" + priority.lower()` — unlike the status and type
fallbacks, no space replacement. -/
def get_priority_tag (cfg : Config) (priority : String) : String :=
  (dictGet cfg.priority_tags priority).getD ("priority/" ++ lowerStr priority)

/-- `Config.get_type_tag` (src/config.py:211-213): mapped tag, or the
fallback `"type/" + issue_type.lower().replace(" ", "-")`. -/
def get_type_tag (cfg : Config) (issue_type : String) : String :=
  (dictGet cfg.type_tags issue_type).getD
    ("type/" ++ replaceChar (lowerStr issue_type) ' ' '-')

/-- `TicketFormatter._build_tags` (src/formatter.py:208-232): one tag per
non-empty status, priority, issue type, then one `#label/...` tag per
label. -/
def _build_tags (cfg : Config) (t : JiraTicket) : List String :=
  (if t.status != "" then ["#" ++ get_status_tag cfg t.status] else [])
  ++ (if t.priority != "" then ["#" ++ get_priority_tag cfg t.priority] else [])
  ++ (if t.issue_type != "" then ["#" ++ get_type_tag cfg t.issue_type] else [])
  ++ t.labels.map (fun label => "#label/" ++ replaceChar (lowerStr label) ' ' '-')

/-- Python truthiness of an `Optional[str]`: `None` and `""` are falsy. -/
def pyTruthyStrOpt : Option String → Bool
  | none => false
  | some s => s != ""

/-- `dt.strftime("%Y-%m-%d")`. -/
def strftimeYmd (d : DateTime) : String :=
  pad4 d.year ++ "-" ++ pad2 d.month ++ "-" ++ pad2 d.day

/-- An f-string line `f"{k}: {v}"` of the YAML front matter. -/
def kvLine (k v : String) : String := k ++ ": " ++ v

/-- `", ".join(xs)`. -/
def joinSep (sep : String) : List String → String
  | [] => ""
  | [x] => x
  | x :: xs => x ++ sep ++ joinSep sep xs

/-- `TicketFormatter._build_frontmatter` (src/formatter.py:177-206).  The
`synced` value `datetime.now().strftime("%Y-%m-%d %H:%M")` depends on the
clock, so the rendered `now` string is an explicit argument. -/
def _build_frontmatter (t : JiraTicket) (now : String) : List String :=
  ["---", kvLine "jira_key" t.key, kvLine "jira_url" t.url,
   kvLine "status" t.status, kvLine "priority" t.priority,
   kvLine "type" t.issue_type]
  ++ (if t.assignee != "" then [kvLine "assignee" t.assignee] else [])
  ++ (if t.reporter != "" then [kvLine "reporter" t.reporter] else [])
  ++ (match t.created with
      | some d => [kvLine "created" (strftimeYmd d)]
      | none => [])
  ++ (match t.updated with
      | some d => [kvLine "updated" (strftimeYmd d)]
      | none => [])
  ++ (if pyTruthyStrOpt t.parent_key then
        [kvLine "parent" (t.parent_key.getD "")] else [])
  ++ (if pyTruthyStrOpt t.epic_key then
        [kvLine "epic" (t.epic_key.getD "")] else [])
  ++ (if t.labels != [] then
        [kvLine "labels" ("[" ++ joinSep ", " t.labels ++ "]")] else [])
  ++ [kvLine "synced" now, "---", ""]

/-- The YAML key of a front-matter line: the characters before the first
colon. -/
def lineKey (l : String) : String := ⟨l.data.takeWhile (fun c => c != ':')⟩

/-- The keys of the key-value lines among `lines`, in order: delimiter and
blank lines carry no colon and are dropped. -/
def keysOf (lines : List String) : List String :=
  (lines.filter (fun l => l.data.any (fun c => c == ':'))).map lineKey

/-- The emitted front-matter keys of a ticket, in order. -/
def frontmatterKeys (t : JiraTicket) (now : String) : List String :=
  keysOf (_build_frontmatter t now)

/-- Modelled from the spec: `sanitize_name` is imported by src/formatter.py
from the package `lib` module, whose source file is not part of the
repository snapshot.  Spec §4.3: strip characters unsafe for filenames,
collapse whitespace, truncate to the given maximum length, optionally
lowercase. -/
def sanitize_name (name : String) (max_length : Nat) (lowercase : Bool) : String :=
  let unsafeChar := fun (c : Char) =>
    c == '/' || c == '\\' || c == ':' || c == '*' || c == '?' ||
    c == '"' || c == '<' || c == '>' || c == '|'
  let isWs := fun (c : Char) => c == ' ' || c == '\t' || c == '\n' || c == '\r'
  let stripped := name.data.filter (fun c => !unsafeChar c)
  let collapsed := (stripped.foldl
    (fun (acc : List Char × Bool) c =>
      if isWs c then (if acc.2 then acc else (acc.1 ++ [' '], true))
      else (acc.1 ++ [c], false)) ([], false)).1
  let trimmed := ((collapsed.dropWhile (fun c => c == ' ')).reverse.dropWhile
    (fun c => c == ' ')).reverse
  let truncated := trimmed.take max_length
  ⟨if lowercase then truncated.map Char.toLower else truncated⟩

/-- `TicketFormatter._generate_filename` (src/formatter.py:398-403). -/
def _generate_filename (t : JiraTicket) : String :=
  if t.summary != "" then
    t.key ++ "-" ++ sanitize_name t.summary 50 true ++ ".md"
  else t.key ++ ".md"

/-- `Config.validate` (src/config.py:185-196): one error message per missing
credential, in a fixed order. -/
def validate (cfg : Config) : List String :=
  (if cfg.jira_url == "" then ["JIRA_URL is required"] else [])
  ++ (if cfg.jira_email == "" then ["JIRA_EMAIL is required"] else [])
  ++ (if cfg.jira_api_token == "" then ["JIRA_API_TOKEN is required"] else [])

/-! ## Connection cache (src/lib/jira_client.py) -/

/-- `JiraConnection` (src/lib/jira_client.py:16-25): the wrapper stores the
`JIRA` client, `base_url` and `email`; `token` stands for the
`basic_auth` API token the wrapped client was constructed with. -/
structure JiraConnection where
  base_url : String
  email : String
  token : String
deriving DecidableEq, Repr

/-- `get_client` (src/lib/jira_client.py:31-65) with the module-global
`_connection` passed and returned explicitly: validate the credentials, then
reuse the cached connection unless none is cached or its `base_url` differs
from the config's `jira_url`; on rebuild, the new connection takes the
config's url, email and token. -/
def get_client (cfg : Config) (conn : Option JiraConnection) :
    Except (List String) (JiraConnection × Option JiraConnection) :=
  let errors := validate cfg
  if errors != [] then .error errors
  else
    match conn with
    | none =>
        let c : JiraConnection := ⟨cfg.jira_url, cfg.jira_email, cfg.jira_api_token⟩
        .ok (c, some c)
    | some c =>
        if c.base_url != cfg.jira_url then
          let c' : JiraConnection := ⟨cfg.jira_url, cfg.jira_email, cfg.jira_api_token⟩
          .ok (c', some c')
        else .ok (c, some c)

/-! ## Pagination (src/client.py JiraClient.search_all_tickets:151-176; the
loop of fetch_epic_children in src/epic/query.py:29-48 is the same loop with
batch_size fixed at 50) -/

/-- The remote search page for offset pagination:
`search_issues(jql, maxResults=batch, startAt=startAt)` over the full result
list `db` of the query. -/
def fetchPage (db : List α) (batch startAt : Nat) : List α :=
  (db.drop startAt).take batch

/-- The `while True` loop of `search_all_tickets`: fetch a page; stop on an
empty page; append the page; advance `start_at` by the page's length; stop
when the page is shorter than the batch size.  `fuel` bounds the iteration
count (the caller passes `db.length + 1`, which is never exhausted). -/
def search_all_go (db : List α) (batch : Nat) : Nat → Nat → List α
  | _, 0 => []
  | startAt, fuel + 1 =>
      let page := fetchPage db batch startAt
      if page.isEmpty then []
      else if page.length < batch then page
      else page ++ search_all_go db batch (startAt + page.length) fuel

/-- `JiraClient.search_all_tickets`: accumulate pages starting at offset 0. -/
def search_all_tickets (db : List α) (batch : Nat) : List α :=
  search_all_go db batch 0 (db.length + 1)

/-- The successive pages at offsets 0, batch, 2·batch, …: each page takes up
to `batch` elements and the next page starts where it ended. -/
def chunksOf (batch : Nat) : List α → Nat → List (List α)
  | _, 0 => []
  | l, fuel + 1 =>
      if l.isEmpty then [] else l.take batch :: chunksOf batch (l.drop batch) fuel

/-- The non-empty pages the pagination loop fetches, in fetch order. -/
def pagesOf (batch : Nat) (l : List α) : List (List α) :=
  chunksOf batch l (l.length + 1)

/-! ## Bulk ticket fetch (src/domains/ticket/query.py fetch_tickets:36-57) -/

/-- The dict comprehension
`{issue.key: _issue_to_ticket(issue, base_url) for issue in issues}` followed
by `by_key[k]`: Python dict insertion lets a later issue with the same key
overwrite an earlier one, so lookup finds the last match.  `issues` stands
for the search result with `_issue_to_ticket` already applied per issue; the
dict key `issue.key` is the converted ticket's `key` field. -/
def by_key_get (issues : List JiraTicket) (k : String) : Option JiraTicket :=
  issues.reverse.find? (fun t => t.key == k)

/-- `fetch_tickets` (src/domains/ticket/query.py:36-57): an empty key list
returns `[]` before any server contact; otherwise the JQL
`key in (k1,...,kn)` search result (passed in as `searchResult`) is indexed
by key and the output is `[by_key[k] for k in keys if k in by_key]` — input
key order, keys the search did not return silently dropped. -/
def fetch_tickets (keys : List String) (searchResult : List JiraTicket) :
    List JiraTicket :=
  if keys = [] then []
  else keys.filterMap (fun k => by_key_get searchResult k)

/-! ## Theorems -/

theorem readStr_eq (n : String) (a : Attr String) (h : a ≠ .missing) :
    readStr n a = .ok (attrStrVal a) := by
  cases a <;> simp [readStr, attrStrVal] at h ⊢

theorem readNamed_eq (n : String) (a : Attr RawNamed) (h : a ≠ .missing) :
    readNamed n a = .ok (attrNamedVal a) := by
  cases a <;> simp [readNamed, attrNamedVal] at h ⊢

theorem readUser_eq (n : String) (a : Attr RawUser) (h : a ≠ .missing) :
    readUser n a = .ok (attrUserVal a) := by
  cases a <;> simp [readUser, attrUserVal] at h ⊢

theorem readDate_eq (n : String) (a : Attr String) (h : a ≠ .missing) :
    readDate n a = .ok (attrDateVal a) := by
  cases a <;> simp [readDate, attrDateVal, parse_date] at h ⊢

theorem readList_eq {α : Type} (n : String) (a : Attr (List α)) (h : a ≠ .missing) :
    readList n a = .ok (attrListVal a) := by
  cases a <;> simp [readList, attrListVal] at h ⊢

theorem issue_to_ticket_eq (issue : RawIssue) (u : String)
    (h : DirectAttrsPresent issue.fields) :
    _issue_to_ticket issue u = .ok (ticketOfRaw issue u) := by
  obtain ⟨h1, h2, h3, h4, h5, h6, h7, h8, h9, h10, h11, h12⟩ := h
  unfold _issue_to_ticket
  dsimp only
  rw [readStr_eq _ _ h1, readStr_eq _ _ h2, readNamed_eq _ _ h3,
    readNamed_eq _ _ h4, readNamed_eq _ _ h5, readUser_eq _ _ h6,
    readUser_eq _ _ h7, readDate_eq _ _ h8, readDate_eq _ _ h9,
    readList_eq _ _ h10, readList_eq _ _ h11, readList_eq _ _ h12]
  rfl

theorem epicCandidate_eq_none (a : Attr EpicFieldVal) (h : a.toOpt = none) :
    epicCandidate a = none := by
  cases a <;> simp [Attr.toOpt, epicCandidate] at h ⊢

/-- C3, counterexample: the attributes status, priority, issuetype, assignee,
reporter, labels, components, fixVersions (and summary, description, created,
updated) are read directly, so a raw issue from which one of them is absent
altogether — rather than present with value `None` — makes the normalizer
raise `AttributeError` instead of defaulting: here an issue whose `status`
attribute is missing. -/
theorem normalize_missing_attr_counterexample :
    _issue_to_ticket ⟨"SR-1", { exFieldsAllNull with status := Attr.missing }⟩
        "https://jira.example.com" = .error "status" := by
  rfl

/-- C3 (amended): whenever the twelve directly-read attributes are present
(each possibly `None`), the normalizer returns a ticket without raising, and
every optional nested field that is `None` — or, for the `hasattr`-guarded
fields parent, epic link, subtasks, issue links, comments and attachments,
absent or `None` — yields its default: the empty string for the name scalars,
`none` for the parent and epic references, the empty list for the list
fields. -/
theorem normalize_never_raises_with_defaults (issue : RawIssue) (u : String)
    (h : DirectAttrsPresent issue.fields) :
    ∃ t, _issue_to_ticket issue u = .ok t ∧
      (issue.fields.status = .null → t.status = "") ∧
      (issue.fields.priority = .null → t.priority = "") ∧
      (issue.fields.issuetype = .null → t.issue_type = "") ∧
      (issue.fields.assignee = .null → t.assignee = "") ∧
      (issue.fields.reporter = .null → t.reporter = "") ∧
      (issue.fields.labels = .null → t.labels = []) ∧
      (issue.fields.components = .null → t.components = []) ∧
      (issue.fields.fixVersions = .null → t.fix_versions = []) ∧
      (issue.fields.parent.toOpt = none →
        t.parent_key = none ∧ t.parent_summary = none) ∧
      (issue.fields.customfield_10014.toOpt = none →
        issue.fields.customfield_10008.toOpt = none →
        issue.fields.parent.toOpt = none → t.epic_key = none) ∧
      (issue.fields.subtasks.toOpt = none → t.subtasks = []) ∧
      (issue.fields.issuelinks.toOpt = none → t.links = []) ∧
      (issue.fields.comment.toOpt = none → t.comments = []) ∧
      (issue.fields.attachment.toOpt = none → t.attachments = []) := by
  refine ⟨ticketOfRaw issue u, issue_to_ticket_eq issue u h,
    fun hn => by simp [ticketOfRaw, hn, attrNamedVal],
    fun hn => by simp [ticketOfRaw, hn, attrNamedVal],
    fun hn => by simp [ticketOfRaw, hn, attrNamedVal],
    fun hn => by simp [ticketOfRaw, hn, attrUserVal],
    fun hn => by simp [ticketOfRaw, hn, attrUserVal],
    fun hn => by simp [ticketOfRaw, hn, attrListVal],
    fun hn => by simp [ticketOfRaw, hn, attrListVal],
    fun hn => by simp [ticketOfRaw, hn, attrListVal],
    fun hn => by simp [ticketOfRaw, hn],
    fun ha hb hp => ?_,
    fun hn => by simp [ticketOfRaw, hn],
    fun hn => by simp [ticketOfRaw, hn],
    fun hn => by simp [ticketOfRaw, hn],
    fun hn => by simp [ticketOfRaw, hn]⟩
  simp [ticketOfRaw, _get_epic_link_field, epicCandidate_eq_none _ ha,
    epicCandidate_eq_none _ hb, hp]

/-- C3 witness: the all-`None` raw issue normalizes successfully. -/
theorem normalize_never_raises_with_defaults_witness :
    DirectAttrsPresent exFieldsAllNull ∧
    ∃ t, _issue_to_ticket ⟨"SR-1", exFieldsAllNull⟩ "https://jira.example.com" =
      .ok t := by
  refine ⟨by decide, ?_⟩
  obtain ⟨t, ht, -⟩ :=
    normalize_never_raises_with_defaults ⟨"SR-1", exFieldsAllNull⟩
      "https://jira.example.com" (by decide)
  exact ⟨t, ht⟩



/-- The loop returns the id of the first transition in list order that
matches any rule. -/
theorem resolve_transition_eq_find (status : String) (ts : List Transition) :
    resolve_transition status ts =
      (ts.find? (matchesTransition status)).map (fun t => t.id) := by
  induction ts with
  | nil => rfl
  | cons t rest ih =>
    by_cases h1 : (lowerStr t.name == lowerStr status || t.id == status) = true
    · simp [resolve_transition, List.find?, matchesTransition, h1]
    · by_cases h2 : (lowerStr t.toStatus == lowerStr status) = true
      · simp [resolve_transition, List.find?, matchesTransition, h1, h2]
      · by_cases h3 : (strEndsWith (lowerStr t.name) (lowerStr status) ||
            strEndsWith (lowerStr t.name) ("to " ++ lowerStr status)) = true
        · simp [resolve_transition, List.find?, matchesTransition, h1, h2, h3]
        · simp [resolve_transition, List.find?, matchesTransition, h1, h2, h3, ih]

/-- C1, counterexample: resolution is NOT by rule priority across the whole
transition list.  With transitions `[{id 1, name "Open to Ready", to "Ready"},
{id 2, name "Ready", to "Ready"}]` and target `"Ready"`, the code selects
id 1 (first transition in list order, via its target-status rule), while the
claimed whole-list resolution order would select id 2 (exact name match
beats a target-status match). -/
theorem resolve_transition_priority_counterexample :
    resolve_transition "Ready"
        [⟨"1", "Open to Ready", "Ready"⟩, ⟨"2", "Ready", "Ready"⟩] = some "1" ∧
    update_status "Ready"
        [⟨"1", "Open to Ready", "Ready"⟩, ⟨"2", "Ready", "Ready"⟩] = .ok "1" ∧
    specResolveTransition "Ready"
        [⟨"1", "Open to Ready", "Ready"⟩, ⟨"2", "Ready", "Ready"⟩] = some "2" := by
  refine ⟨by decide, by rfl, by decide⟩

/-- C1 (amended): `update_status` scans the transition list in order and
executes the FIRST transition that matches any of the four rules, where the
rules are tested per transition (exact name or id, then target-status name,
then suffix), not prioritised across the whole list. -/
theorem update_status_selects_first_matching_transition (status : String)
    (ts : List Transition) :
    resolve_transition status ts =
      (ts.find? (matchesTransition status)).map (fun t => t.id) ∧
    ∀ t, ts.find? (matchesTransition status) = some t → t.id ≠ "" →
      update_status status ts = .ok t.id := by
  refine ⟨resolve_transition_eq_find status ts, ?_⟩
  intro t hfind hid
  unfold update_status
  rw [resolve_transition_eq_find, hfind]
  simp [hid]

/-- C1 witness: on the spec's example transitions, target `"in progress"`
finds transition 1 first and executes it. -/
theorem update_status_selects_first_matching_transition_witness :
    ([⟨"1", "Start Progress", "In Progress"⟩,
        ⟨"2", "Close Issue", "Closed"⟩] : List Transition).find?
        (matchesTransition "in progress") =
      some ⟨"1", "Start Progress", "In Progress"⟩ ∧
    update_status "in progress"
        [⟨"1", "Start Progress", "In Progress"⟩, ⟨"2", "Close Issue", "Closed"⟩] =
      .ok "1" := by
  constructor
  · decide
  · exact (update_status_selects_first_matching_transition "in progress" _).2
      ⟨"1", "Start Progress", "In Progress"⟩ (by decide) (by decide)

/-- C2: provided every transition id is nonempty (as ids from the remote API
are), `update_status` fails exactly when no available transition matches the
target under the four match rules, the failure carries the list of available
transition names, and on that path no remote transition is performed (the
`.error` branch of the embedding). -/
theorem update_status_error_iff_no_match (status : String) (ts : List Transition)
    (hids : ∀ t ∈ ts, t.id ≠ "") :
    (update_status status ts = .error (ts.map (fun t => t.name)) ↔
      ∀ t ∈ ts, matchesTransition status t = false) ∧
    ∀ e, update_status status ts = .error e → e = ts.map (fun t => t.name) := by
  unfold update_status
  rw [resolve_transition_eq_find]
  cases hfind : ts.find? (matchesTransition status) with
  | none =>
    simp only [Option.map_none']
    refine ⟨⟨fun _ t ht => ?_, fun _ => trivial⟩, fun e he => ?_⟩
    · have := List.find?_eq_none.mp hfind t ht
      simpa using this
    · injection he with h
      exact h.symm
  | some t =>
    have hmem := List.mem_of_find?_eq_some hfind
    have hmatch := List.find?_some hfind
    have hid : t.id ≠ "" := hids t hmem
    simp only [Option.map_some']
    rw [if_neg (by simpa using hid)]
    refine ⟨⟨fun h => ?_, fun hall => ?_⟩, fun e he => ?_⟩
    · cases h
    · exact absurd hmatch (by simp [hall t hmem])
    · cases he

/-- C2 witness: on the spec's example transitions, an unknown target raises
the error listing the transition names `["Start Progress", "Close Issue"]`. -/
theorem update_status_error_iff_no_match_witness :
    (∀ t ∈ ([⟨"1", "Start Progress", "In Progress"⟩,
        ⟨"2", "Close Issue", "Closed"⟩] : List Transition), t.id ≠ "") ∧
    update_status "Nonexistent"
        [⟨"1", "Start Progress", "In Progress"⟩, ⟨"2", "Close Issue", "Closed"⟩] =
      .error ["Start Progress", "Close Issue"] := by
  refine ⟨by decide, ?_⟩
  exact ((update_status_error_iff_no_match "Nonexistent" _ (by decide)).1).mpr
    (by decide)

theorem takeWhile_append_stop (p : Char → Bool) (k rest : List Char) (stop : Char)
    (hall : k.all p = true) (hstop : p stop = false) :
    (k ++ stop :: rest).takeWhile p = k := by
  induction k with
  | nil => simp [List.takeWhile_cons, hstop]
  | cons c cs ih =>
    simp only [List.all_cons, Bool.and_eq_true] at hall
    simp [List.takeWhile_cons, hall.1, ih hall.2]

theorem lineKey_kvLine (k v : String) (h : k.data.all (fun c => c != ':') = true) :
    lineKey (kvLine k v) = k := by
  unfold lineKey kvLine
  have hd : (k ++ ": " ++ v).data = k.data ++ ':' :: (' ' :: v.data) := by
    simp [String.data_append]
  rw [hd, takeWhile_append_stop _ _ _ _ h (by decide)]

theorem kvLine_has_colon (k v : String) :
    (kvLine k v).data.any (fun c => c == ':') = true := by
  unfold kvLine
  simp [String.data_append]

theorem keysOf_append (a b : List String) :
    keysOf (a ++ b) = keysOf a ++ keysOf b := by
  simp [keysOf, List.filter_append]

theorem keysOf_kv (k v : String) (h : k.data.all (fun c => c != ':') = true) :
    keysOf [kvLine k v] = [k] := by
  simp [keysOf, List.filter, kvLine_has_colon, lineKey_kvLine _ _ h]

/-- C4: the rendered front matter emits its keys in the fixed order jira_key,
jira_url, status, priority, type, assignee, reporter, created, updated,
parent, epic, labels, synced (the spec abstracts these as key, url, …,
synced-timestamp); every optional key appears exactly when its value is
present (non-empty string, present date, truthy parent/epic key, non-empty
label list), and the emitted key sequence is a sublist of that fixed master
order, so the relative order of emitted keys is the same for any two
tickets. -/
theorem frontmatter_fixed_key_order (t : JiraTicket) (now : String) :
    frontmatterKeys t now =
      ["jira_key", "jira_url", "status", "priority", "type"]
      ++ (if t.assignee != "" then ["assignee"] else [])
      ++ (if t.reporter != "" then ["reporter"] else [])
      ++ (if t.created.isSome then ["created"] else [])
      ++ (if t.updated.isSome then ["updated"] else [])
      ++ (if pyTruthyStrOpt t.parent_key then ["parent"] else [])
      ++ (if pyTruthyStrOpt t.epic_key then ["epic"] else [])
      ++ (if t.labels != [] then ["labels"] else [])
      ++ ["synced"] ∧
    List.Sublist (frontmatterKeys t now)
      ["jira_key", "jira_url", "status", "priority", "type", "assignee",
       "reporter", "created", "updated", "parent", "epic", "labels", "synced"] := by
  have hdash : ("---".data.any (fun c => c == ':')) = false := by decide
  have hblank : ("".data.any (fun c => c == ':')) = false := by decide
  have hfix : keysOf ["---", kvLine "jira_key" t.key, kvLine "jira_url" t.url,
      kvLine "status" t.status, kvLine "priority" t.priority,
      kvLine "type" t.issue_type] =
      ["jira_key", "jira_url", "status", "priority", "type"] := by
    simp [keysOf, List.filter, hdash, kvLine_has_colon,
      lineKey_kvLine "jira_key" _ (by decide), lineKey_kvLine "jira_url" _ (by decide),
      lineKey_kvLine "status" _ (by decide), lineKey_kvLine "priority" _ (by decide),
      lineKey_kvLine "type" _ (by decide)]
  have hass : keysOf (if t.assignee != "" then [kvLine "assignee" t.assignee] else []) =
      (if t.assignee != "" then ["assignee"] else []) := by
    by_cases h : (t.assignee != "") = true
    · simpa [h] using keysOf_kv "assignee" t.assignee (by decide)
    · simp [h, keysOf]
  have hrep : keysOf (if t.reporter != "" then [kvLine "reporter" t.reporter] else []) =
      (if t.reporter != "" then ["reporter"] else []) := by
    by_cases h : (t.reporter != "") = true
    · simpa [h] using keysOf_kv "reporter" t.reporter (by decide)
    · simp [h, keysOf]
  have hcre : keysOf (match t.created with
      | some d => [kvLine "created" (strftimeYmd d)]
      | none => []) = (if t.created.isSome then ["created"] else []) := by
    cases t.created with
    | none => simp [keysOf]
    | some d => simpa using keysOf_kv "created" (strftimeYmd d) (by decide)
  have hupd : keysOf (match t.updated with
      | some d => [kvLine "updated" (strftimeYmd d)]
      | none => []) = (if t.updated.isSome then ["updated"] else []) := by
    cases t.updated with
    | none => simp [keysOf]
    | some d => simpa using keysOf_kv "updated" (strftimeYmd d) (by decide)
  have hpar : keysOf (if pyTruthyStrOpt t.parent_key then
      [kvLine "parent" (t.parent_key.getD "")] else []) =
      (if pyTruthyStrOpt t.parent_key then ["parent"] else []) := by
    by_cases h : pyTruthyStrOpt t.parent_key = true
    · simpa [h] using keysOf_kv "parent" (t.parent_key.getD "") (by decide)
    · simp [h, keysOf]
  have hepi : keysOf (if pyTruthyStrOpt t.epic_key then
      [kvLine "epic" (t.epic_key.getD "")] else []) =
      (if pyTruthyStrOpt t.epic_key then ["epic"] else []) := by
    by_cases h : pyTruthyStrOpt t.epic_key = true
    · simpa [h] using keysOf_kv "epic" (t.epic_key.getD "") (by decide)
    · simp [h, keysOf]
  have hlab : keysOf (if t.labels != [] then
      [kvLine "labels" ("[" ++ joinSep ", " t.labels ++ "]")] else []) =
      (if t.labels != [] then ["labels"] else []) := by
    by_cases h : (t.labels != []) = true
    · simpa [h] using keysOf_kv "labels" ("[" ++ joinSep ", " t.labels ++ "]") (by decide)
    · simp [h, keysOf]
  have hsyn : keysOf [kvLine "synced" now, "---", ""] = ["synced"] := by
    simp [keysOf, List.filter, hdash, hblank, kvLine_has_colon,
      lineKey_kvLine "synced" _ (by decide)]
  have heq : frontmatterKeys t now =
      ["jira_key", "jira_url", "status", "priority", "type"]
      ++ (if t.assignee != "" then ["assignee"] else [])
      ++ (if t.reporter != "" then ["reporter"] else [])
      ++ (if t.created.isSome then ["created"] else [])
      ++ (if t.updated.isSome then ["updated"] else [])
      ++ (if pyTruthyStrOpt t.parent_key then ["parent"] else [])
      ++ (if pyTruthyStrOpt t.epic_key then ["epic"] else [])
      ++ (if t.labels != [] then ["labels"] else [])
      ++ ["synced"] := by
    unfold frontmatterKeys _build_frontmatter
    simp only [keysOf_append]
    rw [hfix, hass, hrep, hcre, hupd, hpar, hepi, hlab, hsyn]
  refine ⟨heq, heq ▸ ?_⟩
  have hsub : ∀ (c : Prop) (inst : Decidable c) (x : List String),
      List.Sublist (if c then x else []) x := by
    intro c inst x
    split
    · exact List.Sublist.refl x
    · exact List.nil_sublist x
  exact ((((((((List.Sublist.refl
    ["jira_key", "jira_url", "status", "priority", "type"]).append
    (hsub _ _ ["assignee"])).append (hsub _ _ ["reporter"])).append
    (hsub _ _ ["created"])).append (hsub _ _ ["updated"])).append
    (hsub _ _ ["parent"])).append (hsub _ _ ["epic"])).append
    (hsub _ _ ["labels"])).append (List.Sublist.refl ["synced"])

/-- C5: the filename is a pure function of the ticket's key and summary —
two tickets agreeing on key and summary get the same filename, regardless of
every other field — and it has the specified shape: key plus the sanitized,
lowercased, 50-character-truncated summary for a non-empty summary, bare key
otherwise.  No timestamp is an input of `_generate_filename`. -/
theorem generate_filename_pure (t₁ t₂ : JiraTicket)
    (hk : t₁.key = t₂.key) (hs : t₁.summary = t₂.summary) :
    _generate_filename t₁ = _generate_filename t₂ ∧
    (t₁.summary = "" → _generate_filename t₁ = t₁.key ++ ".md") ∧
    (t₁.summary ≠ "" →
      _generate_filename t₁ =
        t₁.key ++ "-" ++ sanitize_name t₁.summary 50 true ++ ".md") := by
  refine ⟨?_, fun h => ?_, fun h => ?_⟩
  · unfold _generate_filename
    rw [hk, hs]
  · simp [_generate_filename, h]
  · simp [_generate_filename, h]

/-- C5 witness: two tickets with the same key and summary but different
status render to the same filename. -/
theorem generate_filename_pure_witness :
    _generate_filename { key := "SR-1", summary := "Fix login bug", status := "Done" } =
    _generate_filename { key := "SR-1", summary := "Fix login bug" } :=
  (generate_filename_pure
    { key := "SR-1", summary := "Fix login bug", status := "Done" }
    { key := "SR-1", summary := "Fix login bug" } rfl rfl).1

/-- C6, counterexample: the priority fallback does NOT replace spaces with
dashes — an unmapped priority "Very High" yields the tag
`#priority/very high`, not the claimed `#priority/very-high`. -/
theorem build_tags_priority_fallback_counterexample :
    _build_tags {} { key := "SR-1", priority := "Very High" } =
      ["#priority/very high"] ∧
    (["#priority/very high"] : List String) ≠ ["#priority/very-high"] := by
  constructor
  · rfl
  · decide

/-- C6 (amended): the tag line holds exactly one tag per non-empty status,
priority and issue type — the mapped tag when the configured table has one,
else the category prefix plus the lowercased value, with spaces replaced by
dashes for status and type but NOT for priority — plus one
`#label/...` tag per label, lowercased with spaces replaced by dashes. -/
theorem build_tags_characterization (cfg : Config) (t : JiraTicket) :
    _build_tags cfg t =
      (if t.status != "" then
        ["#" ++ ((dictGet cfg.status_tags t.status).getD
          ("status/" ++ replaceChar (lowerStr t.status) ' ' '-'))] else [])
      ++ (if t.priority != "" then
        ["#" ++ ((dictGet cfg.priority_tags t.priority).getD
          ("priority/" ++ lowerStr t.priority))] else [])
      ++ (if t.issue_type != "" then
        ["#" ++ ((dictGet cfg.type_tags t.issue_type).getD
          ("type/" ++ replaceChar (lowerStr t.issue_type) ' ' '-'))] else [])
      ++ t.labels.map (fun l => "#label/" ++ replaceChar (lowerStr l) ' ' '-') ∧
    (_build_tags cfg t).length =
      (if t.status != "" then 1 else 0) + (if t.priority != "" then 1 else 0) +
      (if t.issue_type != "" then 1 else 0) + t.labels.length := by
  constructor
  · simp [_build_tags, get_status_tag, get_priority_tag, get_type_tag]
  · unfold _build_tags
    by_cases h1 : (t.status != "") = true <;>
      by_cases h2 : (t.priority != "") = true <;>
        by_cases h3 : (t.issue_type != "") = true <;>
          simp [h1, h2, h3, Nat.add_assoc, Nat.add_comm, Nat.add_left_comm]

/-- C7: the date parser returns `None` for an absent or empty date value and
for any value whose dot-prefix does not parse, and never raises (it is a
total function into `Option`); for a vendor timestamp `pre ++ "." ++ rest`
the sub-second-and-timezone suffix starting at the first dot is cut off and
the remainder `pre` is parsed as a naive timestamp. -/
theorem parse_date_spec :
    parse_date none = none ∧ parse_date (some "") = none ∧
    (∀ s, fromisoformat (takeUntilDot s) = none → parse_date (some s) = none) ∧
    ∀ pre post, pre.data.all (fun c => c != '.') = true →
      parse_date (some (pre ++ "." ++ post)) = fromisoformat pre := by
  refine ⟨rfl, rfl, fun s h => ?_, fun pre post hall => ?_⟩
  · by_cases he : (s == "") = true
    · simp [parse_date, he]
    · simp [parse_date, he, h]
  · have hdata : (pre ++ "." ++ post).data = pre.data ++ '.' :: post.data := by
      simp [String.data_append]
    have hne : (pre ++ "." ++ post) ≠ "" := by
      intro he
      have h2 : pre.data ++ '.' :: post.data = ("".data) := by rw [← hdata, he]
      have h3 : ("".data : List Char) = [] := rfl
      rw [h3] at h2
      simp at h2
    have hcut : takeUntilDot (pre ++ "." ++ post) = pre := by
      unfold takeUntilDot
      rw [hdata, takeWhile_append_stop _ _ _ _ hall (by decide)]
    simp [parse_date, hne, hcut]

/-- C7 witness: an unparsable value yields `None`; the vendor timestamp
`2024-01-15T10:30:00.000+0000` is cut at the dot and parses to the naive
timestamp 2024-01-15 10:30:00. -/
theorem parse_date_spec_witness :
    parse_date (some "not a date") = none ∧
    parse_date (some "2024-01-15T10:30:00.000+0000") =
      some ⟨2024, 1, 15, 10, 30, 0⟩ := by
  constructor
  · exact parse_date_spec.2.2.1 "not a date" (by decide)
  · rw [show ("2024-01-15T10:30:00.000+0000" : String) =
        "2024-01-15T10:30:00" ++ "." ++ "000+0000" from by decide,
      parse_date_spec.2.2.2 "2024-01-15T10:30:00" "000+0000" (by decide)]
    decide

theorem search_all_go_eq_drop (db : List α) (batch : Nat) (hb : 0 < batch) :
    ∀ fuel startAt, db.length - startAt < fuel →
      search_all_go db batch startAt fuel = db.drop startAt := by
  intro fuel
  induction fuel with
  | zero => intro s h; exact absurd h (Nat.not_lt_zero _)
  | succ fuel ih =>
    intro s h
    have hlen : (db.drop s).length = db.length - s := List.length_drop s db
    by_cases hemp : ((db.drop s).take batch).isEmpty = true
    · have htail : db.drop s = [] := by
        have ht : (db.drop s).take batch = [] := by
          cases hx : (db.drop s).take batch with
          | nil => rfl
          | cons a l => rw [hx] at hemp; simp [List.isEmpty] at hemp
        rcases List.take_eq_nil_iff.mp ht with h0 | h0
        · omega
        · exact h0
      simp only [search_all_go, fetchPage]
      rw [if_pos hemp, htail]
    · by_cases hshort : ((db.drop s).take batch).length < batch
      · have hlt : (db.drop s).length < batch := by
          rw [List.length_take] at hshort; omega
        have htake : (db.drop s).take batch = db.drop s :=
          List.take_of_length_le (Nat.le_of_lt hlt)
        simp only [search_all_go, fetchPage]
        rw [if_neg hemp, if_pos hshort, htake]
      · have hfull : ((db.drop s).take batch).length = batch := by
          rw [List.length_take] at hshort ⊢; omega
        have hslt : s < db.length := by
          by_contra hge
          apply hemp
          have hde : db.drop s = [] := List.drop_eq_nil_of_le (by omega)
          rw [hde]
          simp
        have hrec : search_all_go db batch (s + batch) fuel = db.drop (s + batch) :=
          ih (s + batch) (by omega)
        simp only [search_all_go, fetchPage]
        rw [if_neg hemp, if_neg hshort, hfull, hrec, ← List.drop_drop]
        exact List.take_append_drop batch (db.drop s)

theorem chunksOf_nil (batch : Nat) : ∀ fuel, chunksOf batch ([] : List α) fuel = [] := by
  intro fuel
  cases fuel with
  | zero => rfl
  | succ fuel => rw [chunksOf]; rfl

theorem chunksOf_spec (batch : Nat) (hb : 0 < batch) :
    ∀ fuel (l : List α), l.length < fuel →
      (chunksOf batch l fuel).flatten = l ∧
      (∀ p ∈ (chunksOf batch l fuel).dropLast, p.length = batch) ∧
      (∀ p ∈ chunksOf batch l fuel, p ≠ [] ∧ p.length ≤ batch) := by
  intro fuel
  induction fuel with
  | zero => intro l h; exact absurd h (Nat.not_lt_zero _)
  | succ fuel ih =>
    intro l h
    by_cases hemp : l.isEmpty = true
    · have hl : l = [] := by
        cases l with
        | nil => rfl
        | cons a t => simp [List.isEmpty] at hemp
      subst hl
      simp [chunksOf_nil]
    · have hne : l ≠ [] := by intro h0; rw [h0] at hemp; simp at hemp
      have hpos : 0 < l.length := List.length_pos.mpr hne
      have hlt : (l.drop batch).length < fuel := by
        rw [List.length_drop]; omega
      obtain ⟨ihj, ihd, ihm⟩ := ih (l.drop batch) hlt
      have hstep : chunksOf batch l (fuel + 1) =
          l.take batch :: chunksOf batch (l.drop batch) fuel := by
        rw [chunksOf, if_neg hemp]
      refine ⟨?_, ?_, ?_⟩
      · rw [hstep, List.flatten_cons, ihj]
        exact List.take_append_drop batch l
      · rw [hstep]
        cases hrest : chunksOf batch (l.drop batch) fuel with
        | nil => simp
        | cons c cs =>
          intro p hp
          rw [List.dropLast_cons₂] at hp
          rcases List.mem_cons.mp hp with hpt | hpr
          · have hdrop : l.drop batch ≠ [] := by
              intro h0
              rw [h0, chunksOf_nil] at hrest
              exact List.noConfusion hrest
            have hblen : batch < l.length := by
              have := List.length_pos.mpr hdrop
              rw [List.length_drop] at this
              omega
            rw [hpt, List.length_take]
            omega
          · rw [← hrest] at hpr
            exact ihd p hpr
      · rw [hstep]
        intro p hp
        rcases List.mem_cons.mp hp with hpt | hpr
        · subst hpt
          constructor
          · intro h0
            rcases List.take_eq_nil_iff.mp h0 with h1 | h1
            · omega
            · exact hne h1
          · rw [List.length_take]; omega
        · exact ihm p hpr

/-- C8: with a positive batch size, the pagination loop — fetch the page at
the current offset, stop on an empty page, append the page and advance the
offset by its length, stop on a short page — returns the concatenation, in
fetch order, of the successive pages at offsets 0, batch, 2·batch, …; that
concatenation is exactly the full result set, every page before the last is
exactly `batch` long (the loop never stops early on a full page), and every
fetched page is non-empty and at most `batch` long. -/
theorem search_all_tickets_pagination (db : List α) (batch : Nat) (hb : 0 < batch) :
    search_all_tickets db batch = (pagesOf batch db).flatten ∧
    search_all_tickets db batch = db ∧
    (∀ p ∈ (pagesOf batch db).dropLast, p.length = batch) ∧
    (∀ p ∈ pagesOf batch db, p ≠ [] ∧ p.length ≤ batch) := by
  have hall : search_all_tickets db batch = db := by
    unfold search_all_tickets
    have := search_all_go_eq_drop db batch hb (db.length + 1) 0 (by omega)
    simpa using this
  obtain ⟨hj, hd, hm⟩ := chunksOf_spec batch hb (db.length + 1) db (by omega)
  exact ⟨by rw [hall]; exact hj.symm, hall, hd, hm⟩

/-- C8 witness: three results fetched with batch size 2 arrive as pages
`[1, 2]` then `[3]` and concatenate to the full result set. -/
theorem search_all_tickets_pagination_witness :
    0 < 2 ∧ search_all_tickets [1, 2, 3] 2 = [1, 2, 3] ∧
    pagesOf 2 [1, 2, 3] = [[1, 2], [3]] := by
  refine ⟨by decide, (search_all_tickets_pagination [1, 2, 3] 2 (by decide)).2.1, ?_⟩
  decide

/-- C9: the connection cache is keyed on the server URL alone — whenever the
cached connection's `base_url` equals the config's `jira_url` and the
credentials validate, `get_client` returns the cached connection unchanged,
carrying whatever email and API token it was originally built with, even if
the config now holds different ones. -/
theorem get_client_url_keyed_cache (cfg : Config) (c : JiraConnection)
    (hv : validate cfg = []) (hurl : c.base_url = cfg.jira_url) :
    get_client cfg (some c) = .ok (c, some c) := by
  unfold get_client
  rw [hv]
  simp [hurl]

/-- C9 witness: a config with the same URL but a new email and token gets
back the cached connection built with the old credentials. -/
theorem get_client_url_keyed_cache_witness :
    validate { jira_url := "https://jira.example.com", jira_email := "new@example.com", jira_api_token := "token-2" } = [] ∧
    (⟨"https://jira.example.com", "old@example.com", "token-1"⟩ :
        JiraConnection).email ≠ "new@example.com" ∧
    get_client
        { jira_url := "https://jira.example.com", jira_email := "new@example.com", jira_api_token := "token-2" }
        (some ⟨"https://jira.example.com", "old@example.com", "token-1"⟩) =
      .ok (⟨"https://jira.example.com", "old@example.com", "token-1"⟩,
        some ⟨"https://jira.example.com", "old@example.com", "token-1"⟩) := by
  refine ⟨by decide, by decide, ?_⟩
  exact get_client_url_keyed_cache
    { jira_url := "https://jira.example.com", jira_email := "new@example.com", jira_api_token := "token-2" }
    ⟨"https://jira.example.com", "old@example.com", "token-1"⟩
    (by decide) (by decide)

theorem by_key_get_key (resp : List JiraTicket) (k : String) (t : JiraTicket)
    (h : by_key_get resp k = some t) : t.key = k := by
  have := List.find?_some h
  simpa using this

theorem by_key_get_mem (resp : List JiraTicket) (k : String) (t : JiraTicket)
    (h : by_key_get resp k = some t) : t ∈ resp :=
  List.mem_reverse.mp (List.mem_of_find?_eq_some h)

theorem by_key_get_eq_none_iff (resp : List JiraTicket) (k : String) :
    by_key_get resp k = none ↔ ∀ t ∈ resp, t.key ≠ k := by
  simp [by_key_get, List.find?_eq_none, List.mem_reverse]

theorem filterMap_by_key_map_key (resp : List JiraTicket) :
    ∀ keys : List String,
      ((keys.filterMap (fun k => by_key_get resp k)).map (fun t => t.key)) =
        keys.filter (fun k => resp.any (fun t => t.key == k)) := by
  intro keys
  induction keys with
  | nil => rfl
  | cons k ks ih =>
    cases hk : by_key_get resp k with
    | none =>
      have hnone : resp.any (fun t => t.key == k) = false := by
        rw [List.any_eq_false]
        intro t ht
        have := (by_key_get_eq_none_iff resp k).mp hk t ht
        simpa using this
      rw [List.filterMap_cons, hk, List.filter_cons, hnone]
      simpa using ih
    | some t =>
      have htk : t.key = k := by_key_get_key resp k t hk
      have hsome : resp.any (fun tt => tt.key == k) = true := by
        rw [List.any_eq_true]
        exact ⟨t, by_key_get_mem resp k t hk, by simp [htk]⟩
      rw [List.filterMap_cons, hk, List.filter_cons, hsome]
      simpa [htk] using ih

/-- C10: `fetch_tickets` on an empty key list returns the empty list without
consulting the search result at all; otherwise its output lists the fetched
tickets in the same relative order as the input key list, silently dropping
(no error raised or recorded — the function's type has no error channel)
every key the search did not return; and every returned ticket comes from the
search result. -/
theorem fetch_tickets_order_and_omission (keys : List String)
    (resp : List JiraTicket) :
    fetch_tickets [] resp = [] ∧
    (fetch_tickets keys resp).map (fun t => t.key) =
      keys.filter (fun k => resp.any (fun t => t.key == k)) ∧
    ∀ t ∈ fetch_tickets keys resp, t ∈ resp := by
  refine ⟨rfl, ?_, ?_⟩
  · cases keys with
    | nil => rfl
    | cons k ks =>
      unfold fetch_tickets
      rw [if_neg (by simp)]
      exact filterMap_by_key_map_key resp (k :: ks)
  · intro t ht
    cases keys with
    | nil => exact absurd ht (by simp [fetch_tickets])
    | cons k ks =>
      unfold fetch_tickets at ht
      rw [if_neg (by simp)] at ht
      obtain ⟨k', _, hk'⟩ := List.mem_filterMap.mp ht
      exact by_key_get_mem resp k' t hk'

/-- C10 witness: keys `["A-2", "A-1", "BAD-1"]` against a search result
holding `A-1` and `A-2` yield the tickets in key order with `BAD-1` silently
dropped, and the returned tickets come from the search result. -/
theorem fetch_tickets_order_and_omission_witness :
    (fetch_tickets ["A-2", "A-1", "BAD-1"]
        [{ key := "A-1" }, { key := "A-2" }]).map (fun t => t.key) =
      ["A-2", "A-1"] ∧
    ({ key := "A-2" } : JiraTicket) ∈
      [({ key := "A-1" } : JiraTicket), { key := "A-2" }] := by
  constructor
  · rw [(fetch_tickets_order_and_omission ["A-2", "A-1", "BAD-1"]
      [{ key := "A-1" }, { key := "A-2" }]).2.1]
    decide
  · exact (fetch_tickets_order_and_omission ["A-2", "A-1", "BAD-1"]
      [{ key := "A-1" }, { key := "A-2" }]).2.2 { key := "A-2" } (by decide)

end JiraSync
